import Mathlib

/-!
Verification of the APILens monitoring core against its design description.

The development shallowly embeds the service layer of the repository
(`src/api/src/modules/apis/apis.service.ts`) and the changelog schema
(`src/api/src/Schemas/changelog-schema.ts`).  The persistent collections
(Mongo models) are embedded as in-memory lists threaded through each
operation; each store write that the real service awaits is given an
explicit outcome parameter (`none` = the write succeeds, `some msg` = the
write rejects with message `msg`), which models a fallible document store
without any IO.  HTTP fetches are likewise passed in as an
`Except String OpenAPISpec` outcome, and the change-detector collaborator
(whose source is not part of the service file) is a function parameter.
Timestamps are milliseconds as `Int` (JavaScript `Date.getTime`).
-/

namespace APILens

/-- The slice of an OpenAPI document the service inspects: `info?.version`,
the key sets of `paths` and `components.schemas` (used for snapshot
metadata counts), and the length of its JSON serialization (abstracting
`JSON.stringify(spec).length`). -/
structure OpenAPISpec where
  infoVersion : Option String
  paths : List String
  schemas : List String
  serializedSize : Nat
deriving DecidableEq, Repr

/-- JavaScript truthiness for an optional string: `undefined` and the empty
string are falsy, so `x?.y || d` reads the value only when it is a
non-empty string.  `truthyStr v` is `some s` exactly when `v` is a truthy
string `s`. -/
def truthyStr : Option String → Option String
  | some s => if s = "" then none else some s
  | none => none

/-- A monitored API record (the `Api` document created and mutated by
`ApisService`). -/
structure Api where
  id : String
  apiName : String
  openApiUrl : String
  type : String
  version : String
  latestSpec : OpenAPISpec
  lastChecked : Option Int
  userId : String
  checkFrequency : String
  tags : List String
  description : Option String
  healthStatus : String
  lastHealthCheck : Option Int
  lastError : Option String
  changeCount : Nat
  isActive : Bool
deriving DecidableEq, Repr

/-- Derived snapshot metadata, computed in `createSnapshot`. -/
structure SnapshotMetadata where
  endpointCount : Nat
  schemaCount : Nat
  specSize : Nat
deriving DecidableEq, Repr

/-- A stored `ApiSnapshot` document. -/
structure ApiSnapshot where
  apiId : String
  version : String
  spec : OpenAPISpec
  detectedAt : Int
  metadata : SnapshotMetadata
deriving DecidableEq, Repr

/-- A stored `Changelog` document (`src/api/src/Schemas/changelog-schema.ts`). -/
structure Changelog where
  apiId : String
  previousVersion : String
  newVersion : String
  diffSummary : String
  timestamp : Int
deriving DecidableEq, Repr

/-- The three persistent collections the service touches. -/
structure DB where
  apis : List Api
  snapshots : List ApiSnapshot
  changelog : List Changelog
deriving DecidableEq, Repr

/-- Result of the change-detector collaborator
(`ChangeDetectorService.detectChanges`); the individual changes are carried
opaquely since the service only passes them through. -/
structure ChangeResult where
  hasChanges : Bool
  changes : List String
deriving DecidableEq, Repr

/-- The value resolved by `checkApiForChanges`. -/
structure CheckOutcome where
  hasChanges : Bool
  changes : Option (List String)
  newVersion : Option String
deriving DecidableEq, Repr

/-- `this.apiModel.findById(id)`: first stored record with the given id
(Mongo `_id`s are unique, so first = only). -/
def findById (db : DB) (apiId : String) : Option Api :=
  db.apis.find? (fun a => a.id == apiId)

/-- `this.apiModel.findByIdAndUpdate(id, fields)`: rewrite the matching
record with the field update `f`. -/
def findByIdAndUpdate (db : DB) (apiId : String) (f : Api → Api) : DB :=
  { db with apis := db.apis.map (fun a => if a.id == apiId then f a else a) }

/-- An awaited store write with fault injection: `outcome = none` applies
the update, `outcome = some msg` rejects with `msg` (the awaited promise
throws) and leaves the store untouched. -/
def tryUpdate (outcome : Option String) (db : DB) (apiId : String)
    (f : Api → Api) : Except String DB :=
  match outcome with
  | some msg => .error msg
  | none => .ok (findByIdAndUpdate db apiId f)

/-- Metadata computed inside `createSnapshot`. -/
def snapshotMetadata (spec : OpenAPISpec) : SnapshotMetadata :=
  { endpointCount := spec.paths.length
    schemaCount := spec.schemas.length
    specSize := spec.serializedSize }

/-- `createSnapshot`: inserts a snapshot document; a store rejection is
caught inside the method, logged and swallowed, so the caller never sees
it and on failure the store is simply left unchanged. -/
def createSnapshot (insertOutcome : Option String) (db : DB) (apiId : String)
    (spec : OpenAPISpec) (now : Int) : DB :=
  match insertOutcome with
  | some _ => db
  | none =>
    { db with snapshots := db.snapshots ++
        [{ apiId := apiId
           version := (truthyStr spec.infoVersion).getD "unknown"
           spec := spec
           detectedAt := now
           metadata := snapshotMetadata spec }] }

/-- `getCheckIntervalMs`: the frequency-token interval table with the
`|| intervals['1h']` fallback for unknown tokens. -/
def getCheckIntervalMs (frequency : String) : Int :=
  if frequency = "5m" then 5 * 60 * 1000
  else if frequency = "15m" then 15 * 60 * 1000
  else if frequency = "1h" then 60 * 60 * 1000
  else if frequency = "6h" then 6 * 60 * 60 * 1000
  else if frequency = "1d" then 24 * 60 * 60 * 1000
  else 60 * 60 * 1000

/-- `getApisToCheck`: all active targets that were never checked or whose
elapsed time since `lastChecked` reaches their frequency's interval. -/
def getApisToCheck (db : DB) (now : Int) : List Api :=
  (db.apis.filter (fun a => a.isActive)).filter (fun api =>
    match api.lastChecked with
    | none => true
    | some t => decide (now - t ≥ getCheckIntervalMs api.checkFrequency))

/-- The outcome of every store write awaited by `checkApiForChanges`,
one field per call site, in source order. -/
structure CheckWriteOutcomes where
  markChecking : Option String
  markHealthy : Option String
  applyChange : Option String
  snapshotInsert : Option String
  touchLastChecked : Option String
  markError : Option String

/-- The `{ hasChanges: false }` result value. -/
def noChange : CheckOutcome := ⟨false, none, none⟩

/-- `checkApiForChanges`: the per-target scheduled check.  Returns
`.error` only when a rejection escapes the method (possible only if the
error-status write inside the catch handler itself rejects); otherwise
`.ok (db, outcome)` with the final store state.  The `try` body is
threaded so that the catch handler operates on the store exactly as
mutated up to the failure point, as the real code does. -/
def checkApiForChanges (detect : OpenAPISpec → OpenAPISpec → ChangeResult)
    (fetchResult : Except String OpenAPISpec) (w : CheckWriteOutcomes)
    (now : Int) (db : DB) (apiId : String) :
    Except String (DB × CheckOutcome) :=
  match findById db apiId with
  | none => .ok (db, noChange)
  | some api =>
    if api.isActive then
      let body : DB × Except String (DB × CheckOutcome) :=
        match tryUpdate w.markChecking db apiId (fun a =>
            { a with healthStatus := "checking", lastHealthCheck := some now }) with
        | .error msg => (db, .error msg)
        | .ok db1 =>
          match fetchResult with
          | .error msg => (db1, .error msg)
          | .ok newSpec =>
            let changeResult := detect api.latestSpec newSpec
            match tryUpdate w.markHealthy db1 apiId (fun a =>
                { a with healthStatus := "healthy", lastChecked := some now,
                         lastHealthCheck := some now, lastError := none }) with
            | .error msg => (db1, .error msg)
            | .ok db2 =>
              if changeResult.hasChanges then
                match tryUpdate w.applyChange db2 apiId (fun a =>
                    { a with latestSpec := newSpec,
                             version := (truthyStr newSpec.infoVersion).getD api.version,
                             changeCount := api.changeCount + 1 }) with
                | .error msg => (db2, .error msg)
                | .ok db3 =>
                  let db4 := createSnapshot w.snapshotInsert db3 apiId newSpec now
                  (db4, .ok (db4, ⟨true, some changeResult.changes, newSpec.infoVersion⟩))
              else
                match tryUpdate w.touchLastChecked db2 apiId (fun a =>
                    { a with lastChecked := some now }) with
                | .error msg => (db2, .error msg)
                | .ok db3 => (db3, .ok (db3, noChange))
      match body with
      | (_, .ok r) => .ok r
      | (dbAtFail, .error msg) =>
        match tryUpdate w.markError dbAtFail apiId (fun a =>
            { a with healthStatus := "error", lastHealthCheck := some now,
                     lastError := some msg }) with
        | .error msg2 => .error msg2
        | .ok dbErr => .ok (dbErr, noChange)
    else .ok (db, noChange)

/-- The registration request body (`CreateApiDto`); optional fields that
the service defaults with `||`. -/
structure CreateApiDto where
  apiName : String
  openApiUrl : String
  type : Option String
  checkFrequency : Option String
  tags : Option (List String)
  description : Option String
deriving Repr

/-- `registerApi`: one synchronous fetch, `info.version` validation, record
creation, then the baseline snapshot.  The catch clause maps transport and
HTTP errors to user-facing messages; the claims depend only on the call
failing, so the message is carried through with the generic prefix of the
final rethrow branch. -/
def registerApi (fetchResult : Except String OpenAPISpec)
    (saveOutcome : Option String) (snapshotOutcome : Option String)
    (newId : String) (now : Int) (dto : CreateApiDto) (userId : String)
    (db : DB) : Except String (DB × Api) :=
  match fetchResult with
  | .error msg => .error ("Failed to register API: " ++ msg)
  | .ok spec =>
    match truthyStr spec.infoVersion with
    | none => .error "Failed to register API: Invalid OpenAPI spec - missing version information"
    | some v =>
      match saveOutcome with
      | some msg => .error ("Failed to register API: " ++ msg)
      | none =>
        let api : Api := {
          id := newId
          apiName := dto.apiName
          openApiUrl := dto.openApiUrl
          type := (truthyStr dto.type).getD "openapi"
          version := v
          latestSpec := spec
          lastChecked := some now
          userId := userId
          checkFrequency := (truthyStr dto.checkFrequency).getD "1h"
          tags := dto.tags.getD []
          description := dto.description
          healthStatus := "healthy"
          lastHealthCheck := some now
          lastError := none
          changeCount := 0
          isActive := true }
        let db1 : DB := { db with apis := db.apis ++ [api] }
        .ok (createSnapshot snapshotOutcome db1 newId spec now, api)

/-- `deleteApi`: ownership-checked delete of the record and of every
snapshot and changelog entry referencing it (`deleteMany({ apiId })`). -/
def deleteApi (db : DB) (id : String) (userId : String) : Except String DB :=
  match findById db id with
  | none => .error "API not found"
  | some api =>
    if api.userId == userId then
      .ok { apis := db.apis.filter (fun a => !(a.id == id))
            snapshots := db.snapshots.filter (fun s => !(s.apiId == id))
            changelog := db.changelog.filter (fun e => !(e.apiId == id)) }
    else .error "Access denied"

/-- The value returned by `getApiStats`. -/
structure ApiStatsDto where
  totalApis : Nat
  activeApis : Nat
  healthyApis : Nat
  unhealthyApis : Nat
  recentChanges : Nat
  totalChanges : Nat
deriving DecidableEq, Repr

/-- Seven days in milliseconds (`setDate(getDate() - 7)`; the calendar
arithmetic is abstracted to a fixed 7-day offset on the millisecond
clock). -/
def sevenDaysMs : Int := 7 * 24 * 60 * 60 * 1000

/-- `getApiStats`: five per-user counts over the api collection and the
`recentChanges` count over the changelog collection, whose filter carries
only the timestamp bound. -/
def getApiStats (db : DB) (userId : String) (now : Int) : ApiStatsDto :=
  { totalApis := db.apis.countP (fun a => a.userId == userId)
    activeApis := db.apis.countP (fun a => a.userId == userId && a.isActive)
    healthyApis := db.apis.countP (fun a =>
      a.userId == userId && a.healthStatus == "healthy")
    unhealthyApis := db.apis.countP (fun a =>
      a.userId == userId && (a.healthStatus == "unhealthy" || a.healthStatus == "error"))
    recentChanges := db.changelog.countP (fun e =>
      decide (now - sevenDaysMs ≤ e.timestamp))
    totalChanges := ((db.apis.filter (fun a => a.userId == userId)).map
      (fun a => a.changeCount)).sum }

/-- One index declaration of a collection schema: the ordered key list
with directions, and the unique flag. -/
structure IndexDecl where
  keys : List (String × Int)
  unique : Bool
deriving DecidableEq, Repr

/-- The index declarations on the changelog collection, transcribed from
`src/api/src/Schemas/changelog-schema.ts`: the two field-level `index: true`
props, the per-target timeline index, the unique transition index, and the
global timeline index. -/
def changelogIndexes : List IndexDecl :=
  [ ⟨[("apiId", 1)], false⟩,
    ⟨[("timestamp", 1)], false⟩,
    ⟨[("apiId", 1), ("timestamp", -1)], false⟩,
    ⟨[("apiId", 1), ("previousVersion", 1), ("newVersion", 1)], true⟩,
    ⟨[("timestamp", -1)], false⟩ ]

/-- The key triple governed by the unique index. -/
def transitionKey (e : Changelog) : String × String × String :=
  (e.apiId, e.previousVersion, e.newVersion)

/-- Modelled from the spec: the document store itself is not under `src/`;
the design treats it as "a generic persistent collection store with
indexing and uniqueness-constraint support".  An insert into the changelog
collection, guarded by the unique composite index on
(apiId, previousVersion, newVersion), stores the document when no stored
document shares its key triple and otherwise rejects the duplicate,
leaving the collection unchanged. -/
def insertChangelog (store : List Changelog) (e : Changelog) : List Changelog :=
  if store.any (fun x => decide (transitionKey x = transitionKey e)) then store
  else store ++ [e]

/-! Helper lemmas about the embedded store operations. -/

theorem findById_some_id (db : DB) (i : String) (api : Api)
    (h : findById db i = some api) : api.id = i := by
  have := List.find?_some h
  simpa using this

theorem findById_findByIdAndUpdate (db : DB) (i : String) (f : Api → Api)
    (hf : ∀ a : Api, a.id = i → (f a).id = i) :
    findById (findByIdAndUpdate db i f) i = (findById db i).map f := by
  unfold findById findByIdAndUpdate
  induction db.apis with
  | nil => simp
  | cons a l ih =>
    by_cases h : a.id = i
    · simp [List.find?_cons, h, hf a h]
    · simpa [List.find?_cons, h] using ih

theorem mem_findByIdAndUpdate_of_ne (db : DB) (i : String) (f : Api → Api)
    (a : Api) (ha : a ∈ db.apis) (hne : a.id ≠ i) :
    a ∈ (findByIdAndUpdate db i f).apis := by
  unfold findByIdAndUpdate
  have h := List.mem_map_of_mem (fun b : Api => if b.id == i then f b else b) ha
  simpa [hne] using h

theorem snapshots_findByIdAndUpdate (db : DB) (i : String) (f : Api → Api) :
    (findByIdAndUpdate db i f).snapshots = db.snapshots := rfl

theorem changelog_findByIdAndUpdate (db : DB) (i : String) (f : Api → Api) :
    (findByIdAndUpdate db i f).changelog = db.changelog := rfl

/-- The interval table, stated the way the claim states it: minutes per
frequency token. -/
def claimIntervalMinutes (frequency : String) : Int :=
  if frequency = "5m" then 5
  else if frequency = "15m" then 15
  else if frequency = "1h" then 60
  else if frequency = "6h" then 360
  else if frequency = "1d" then 1440
  else 60

theorem getCheckIntervalMs_eq_claim (frequency : String) :
    getCheckIntervalMs frequency = claimIntervalMinutes frequency * (60 * 1000) := by
  unfold getCheckIntervalMs claimIntervalMinutes
  split_ifs <;> norm_num

/-! Concrete fixtures used by the evaluated theorems and witnesses. -/

/-- A baseline specification document, version 1.0.0, no paths. -/
def s0 : OpenAPISpec := ⟨some "1.0.0", [], [], 10⟩

/-- The same version with one added path. -/
def s1 : OpenAPISpec := ⟨some "1.0.0", ["/users"], [], 20⟩

/-- A registered active target holding `s0`. -/
def api0 : Api :=
  ⟨"a1", "demo", "http://x", "openapi", "1.0.0", s0, some 0, "u1", "1h",
   [], none, "healthy", some 0, none, 0, true⟩

/-- Store with the one target and its baseline snapshot. -/
def db0 : DB := ⟨[api0], [⟨"a1", "1.0.0", s0, 0, snapshotMetadata s0⟩], []⟩

/-- A detector reporting one added path. -/
def detectAdd : OpenAPISpec → OpenAPISpec → ChangeResult :=
  fun _ _ => ⟨true, ["added /users"]⟩

/-- A detector reporting no changes. -/
def detectNone : OpenAPISpec → OpenAPISpec → ChangeResult :=
  fun _ _ => ⟨false, []⟩

/-- Every store write succeeds. -/
def allOk : CheckWriteOutcomes := ⟨none, none, none, none, none, none⟩

/-- C1: evaluating `checkApiForChanges` at the failing input — a check in
which the change detector reports changes.  The check replaces the stored
specification, keeps the version, increments changeCount from 0 to 1 and
writes exactly one new Snapshot, but the changelog collection stays empty:
no ChangelogEntry is ever written by `checkApiForChanges` (the changelog
write exists only in the commented-out `refreshApi`), contradicting the
claim's "writes exactly one new ChangelogEntry". -/
theorem c1_changed_check_writes_no_changelog_entry :
    ∃ db' : DB,
      checkApiForChanges detectAdd (.ok s1) allOk 1000 db0 "a1" =
        .ok (db', ⟨true, some ["added /users"], some "1.0.0"⟩) ∧
      findById db' "a1" = some { api0 with
        latestSpec := s1,
        lastChecked := some 1000,
        lastHealthCheck := some 1000,
        changeCount := 1 } ∧
      db'.snapshots.length = db0.snapshots.length + 1 ∧
      db0.changelog = [] ∧ db'.changelog = [] :=
  ⟨_, rfl, by decide, by decide, rfl, by decide⟩

/-- C2: when the fetch fails, the check returns the per-target
`hasChanges = false` result instead of throwing, the target ends with
health `error` and the error message recorded while `lastChecked` is left
as it was (the final record is `api` with only `healthStatus`,
`lastHealthCheck` and `lastError` rewritten), no Snapshot and no
ChangelogEntry is written, and every other stored target is preserved
verbatim. -/
theorem c2_fetch_failure_isolated
    (detect : OpenAPISpec → OpenAPISpec → ChangeResult)
    (db : DB) (apiId : String) (api : Api) (w : CheckWriteOutcomes)
    (now : Int) (msg : String)
    (hfind : findById db apiId = some api) (hact : api.isActive = true)
    (hw1 : w.markChecking = none) (hwe : w.markError = none) :
    ∃ db' : DB,
      checkApiForChanges detect (.error msg) w now db apiId =
        .ok (db', noChange) ∧
      findById db' apiId = some { api with
        healthStatus := "error",
        lastHealthCheck := some now,
        lastError := some msg } ∧
      db'.snapshots = db.snapshots ∧ db'.changelog = db.changelog ∧
      ∀ b ∈ db.apis, b.id ≠ apiId → b ∈ db'.apis := by
  refine ⟨findByIdAndUpdate (findByIdAndUpdate db apiId (fun a =>
      { a with healthStatus := "checking", lastHealthCheck := some now }))
      apiId (fun a =>
      { a with healthStatus := "error", lastHealthCheck := some now,
               lastError := some msg }), ?_, ?_, rfl, rfl, ?_⟩
  · unfold checkApiForChanges
    rw [hfind]
    simp only [hact, if_true, hw1, hwe, tryUpdate]
  · rw [findById_findByIdAndUpdate, findById_findByIdAndUpdate, hfind]
    · rfl
    · intro a ha; exact ha
    · intro a ha; exact ha
  · intro b hb hne
    exact mem_findByIdAndUpdate_of_ne _ _ _ _
      (mem_findByIdAndUpdate_of_ne _ _ _ _ hb hne) hne

/-- C2 witness: the theorem applied at the concrete fixture with a timed-out
fetch. -/
theorem c2_witness :
    findById db0 "a1" = some api0 ∧ api0.isActive = true ∧
    ∃ db' : DB,
      checkApiForChanges detectNone (.error "timeout of 10000ms exceeded")
          allOk 1000 db0 "a1" = .ok (db', noChange) ∧
      findById db' "a1" = some { api0 with
        healthStatus := "error",
        lastHealthCheck := some 1000,
        lastError := some "timeout of 10000ms exceeded" } ∧
      db'.snapshots = db0.snapshots ∧ db'.changelog = db0.changelog ∧
      ∀ b ∈ db0.apis, b.id ≠ "a1" → b ∈ db'.apis :=
  ⟨by decide, by decide,
   c2_fetch_failure_isolated detectNone db0 "a1" api0 allOk 1000
     "timeout of 10000ms exceeded" (by decide) (by decide) rfl rfl⟩

/-- The fixture target already in `checking` state. -/
def apiChecking : Api := { api0 with healthStatus := "checking" }

/-- Store holding only the `checking`-state target. -/
def dbChecking : DB := ⟨[apiChecking], [], []⟩

/-- C3 counterexample: a check triggered for a target whose health status
is already `checking` is not skipped — `checkApiForChanges` has no guard
on the stored health state, so the check runs in full and rewrites the
target record (health set to `healthy`, `lastChecked` advanced),
contradicting "performs no fetch and no snapshot/changelog/target
writes". -/
theorem c3_checking_state_not_skipped :
    apiChecking.healthStatus = "checking" ∧
    ∃ db' : DB,
      checkApiForChanges detectNone (.ok s0) allOk 500 dbChecking "a1" =
        .ok (db', noChange) ∧
      findById db' "a1" = some { apiChecking with
        healthStatus := "healthy",
        lastChecked := some 500,
        lastHealthCheck := some 500 } ∧
      findById db' "a1" ≠ findById dbChecking "a1" :=
  ⟨rfl, _, rfl, by decide, by decide⟩

/-- C3 amended: a check triggered for a target in `checking` state
proceeds exactly like any other check — the fetch-and-diff pipeline runs
and the target record is rewritten; there is no per-target mutual
exclusion, and a check is skipped only when the target is missing or
inactive. -/
theorem c3_check_on_checking_target_proceeds
    (detect : OpenAPISpec → OpenAPISpec → ChangeResult)
    (db : DB) (apiId : String) (api : Api) (w : CheckWriteOutcomes)
    (now : Int) (spec : OpenAPISpec)
    (hfind : findById db apiId = some api) (hact : api.isActive = true)
    (_hstate : api.healthStatus = "checking")
    (hdet : detect api.latestSpec spec = ⟨false, []⟩)
    (hw1 : w.markChecking = none) (hw2 : w.markHealthy = none)
    (hw5 : w.touchLastChecked = none) :
    ∃ db' : DB,
      checkApiForChanges detect (.ok spec) w now db apiId =
        .ok (db', noChange) ∧
      findById db' apiId = some { api with
        healthStatus := "healthy",
        lastChecked := some now,
        lastHealthCheck := some now,
        lastError := none } := by
  refine ⟨findByIdAndUpdate (findByIdAndUpdate (findByIdAndUpdate db apiId
      (fun a => { a with healthStatus := "checking", lastHealthCheck := some now }))
      apiId (fun a =>
      { a with healthStatus := "healthy", lastChecked := some now,
               lastHealthCheck := some now, lastError := none }))
      apiId (fun a => { a with lastChecked := some now }), ?_, ?_⟩
  · unfold checkApiForChanges
    rw [hfind]
    simp only [hact, if_true, hw1, hw2, hw5, tryUpdate, hdet, Bool.false_eq_true,
      if_false]
  · rw [findById_findByIdAndUpdate, findById_findByIdAndUpdate,
        findById_findByIdAndUpdate, hfind]
    · rfl
    · intro a ha; exact ha
    · intro a ha; exact ha
    · intro a ha; exact ha

/-- C3 witness: the amended theorem applied to the concrete
`checking`-state fixture. -/
theorem c3_witness :
    findById dbChecking "a1" = some apiChecking ∧
    apiChecking.isActive = true ∧ apiChecking.healthStatus = "checking" ∧
    ∃ db' : DB,
      checkApiForChanges detectNone (.ok s0) allOk 500 dbChecking "a1" =
        .ok (db', noChange) ∧
      findById db' "a1" = some { apiChecking with
        healthStatus := "healthy",
        lastChecked := some 500,
        lastHealthCheck := some 500,
        lastError := none } :=
  ⟨by decide, by decide, rfl,
   c3_check_on_checking_target_proceeds detectNone dbChecking "a1" apiChecking
     allOk 500 s0 (by decide) (by decide) rfl rfl rfl rfl rfl⟩

/-- C4: an active stored target is selected by `getApisToCheck` exactly
when it has no `lastChecked`, or the elapsed time since `lastChecked`
reaches the interval for its frequency token, with the table
5m/15m/1h/6h/1d ↦ 5/15/60/360/1440 minutes and every other token falling
back to the 1-hour interval (`claimIntervalMinutes`). -/
theorem c4_due_selection (db : DB) (now : Int) (api : Api)
    (hmem : api ∈ db.apis) (hact : api.isActive = true) :
    api ∈ getApisToCheck db now ↔
      api.lastChecked = none ∨
      ∃ t : Int, api.lastChecked = some t ∧
        now - t ≥ claimIntervalMinutes api.checkFrequency * (60 * 1000) := by
  have hmain : api ∈ getApisToCheck db now ↔
      (match api.lastChecked with
        | none => true
        | some t => decide (now - t ≥ getCheckIntervalMs api.checkFrequency)) = true := by
    unfold getApisToCheck
    rw [List.mem_filter, List.mem_filter]
    simp [hmem, hact]
  rw [hmain]
  cases h : api.lastChecked with
  | none => simp [h]
  | some t => simp [h, getCheckIntervalMs_eq_claim]

/-- C4 witness: the theorem applied to the fixture target, last checked at
time 0 with frequency `1h`, at `now` exactly one hour later. -/
theorem c4_witness :
    api0 ∈ db0.apis ∧ api0.isActive = true ∧
    (api0 ∈ getApisToCheck db0 3600000 ↔
      api0.lastChecked = none ∨
      ∃ t : Int, api0.lastChecked = some t ∧
        3600000 - t ≥ claimIntervalMinutes api0.checkFrequency * (60 * 1000)) :=
  ⟨by decide, by decide, c4_due_selection db0 3600000 api0 (by decide) (by decide)⟩

/-- C5: the changelog schema declares the unique composite index on
(apiId, previousVersion, newVersion), and under the store's unique-index
semantics inserting two entries with the same transition key into a store
holding none leaves exactly one stored record with that key (the second
insert is rejected as a duplicate). -/
theorem c5_changelog_transition_unique
    (store : List Changelog) (e₁ e₂ : Changelog)
    (hkey : transitionKey e₂ = transitionKey e₁)
    (hclean : ∀ x ∈ store, transitionKey x ≠ transitionKey e₁) :
    (IndexDecl.mk [("apiId", 1), ("previousVersion", 1), ("newVersion", 1)] true
        ∈ changelogIndexes) ∧
    insertChangelog (insertChangelog store e₁) e₂ = store ++ [e₁] ∧
    (insertChangelog (insertChangelog store e₁) e₂).countP
        (fun x => decide (transitionKey x = transitionKey e₁)) = 1 := by
  have h1 : store.any (fun x => decide (transitionKey x = transitionKey e₁)) = false := by
    rw [List.any_eq_false]
    intro x hx
    simp [hclean x hx]
  have hins1 : insertChangelog store e₁ = store ++ [e₁] := by
    unfold insertChangelog
    rw [h1]
    simp
  have h2 : (store ++ [e₁]).any
      (fun x => decide (transitionKey x = transitionKey e₂)) = true := by
    rw [List.any_eq_true]
    exact ⟨e₁, by simp, by simp [hkey]⟩
  have hins2 : insertChangelog (store ++ [e₁]) e₂ = store ++ [e₁] := by
    unfold insertChangelog
    rw [h2]
    simp
  refine ⟨by decide, by rw [hins1, hins2], ?_⟩
  rw [hins1, hins2, List.countP_append]
  have hz : store.countP (fun x => decide (transitionKey x = transitionKey e₁)) = 0 := by
    rw [List.countP_eq_zero]
    intro x hx
    simp [hclean x hx]
  simp [hz, List.countP_cons]

/-- The duplicate transition entry used by the C5 witness. -/
def entry1 : Changelog := ⟨"a1", "1.0.0", "1.0.0", "added /users", 100⟩

/-- C5 witness: the theorem applied to the empty store with the same entry
written twice. -/
theorem c5_witness :
    transitionKey entry1 = transitionKey entry1 ∧
    insertChangelog (insertChangelog [] entry1) entry1 = [entry1] ∧
    (insertChangelog (insertChangelog [] entry1) entry1).countP
        (fun x => decide (transitionKey x = transitionKey entry1)) = 1 :=
  ⟨rfl,
   (c5_changelog_transition_unique [] entry1 entry1 rfl (by simp)).2.1,
   (c5_changelog_transition_unique [] entry1 entry1 rfl (by simp)).2.2⟩

/-- A registration request for the fixtures. -/
def dtoDemo : CreateApiDto := ⟨"demo", "http://x", none, none, none, none⟩

/-- An empty store. -/
def emptyDB : DB := ⟨[], [], []⟩

/-- C6 counterexample: registration whose synchronous fetch succeeds with a
valid version but whose baseline snapshot insert is rejected by the store
still returns success — `createSnapshot` swallows the rejection — leaving
a successfully registered target with zero Snapshots, contradicting
"every successfully registered target has at least one Snapshot". -/
theorem c6_registration_survives_snapshot_failure :
    ∃ api : Api,
      registerApi (.ok s0) none (some "disk full") "n1" 100 dtoDemo "u1"
          emptyDB = .ok (⟨[api], [], []⟩, api) ∧
      api.healthStatus = "healthy" ∧ api.changeCount = 0 ∧ api.id = "n1" :=
  ⟨_, rfl, rfl, rfl, rfl⟩

/-- C6 amended: registration fetches once; a failed fetch or a missing (or
empty) `info.version` fails the registration synchronously with no target
record produced; on success the target is created with health `healthy`
and `changeCount` 0 and the baseline snapshot insert is attempted — when
that insert succeeds the new target has a first Snapshot, but a rejected
insert is swallowed and registration still succeeds without one. -/
theorem c6_registration_amended (db : DB) (dto : CreateApiDto)
    (userId newId : String) (now : Int) :
    (∀ (msg : String) (saveO snapO : Option String),
      registerApi (.error msg) saveO snapO newId now dto userId db =
        .error ("Failed to register API: " ++ msg)) ∧
    (∀ (spec : OpenAPISpec) (saveO snapO : Option String),
      truthyStr spec.infoVersion = none →
      registerApi (.ok spec) saveO snapO newId now dto userId db =
        .error "Failed to register API: Invalid OpenAPI spec - missing version information") ∧
    (∀ (spec : OpenAPISpec) (v : String), truthyStr spec.infoVersion = some v →
      ∃ (db' : DB) (api : Api),
        registerApi (.ok spec) none none newId now dto userId db =
          .ok (db', api) ∧
        api.healthStatus = "healthy" ∧ api.changeCount = 0 ∧ api.id = newId ∧
        api ∈ db'.apis ∧
        ∃ snap : ApiSnapshot, db'.snapshots = db.snapshots ++ [snap] ∧
          snap.apiId = newId) ∧
    (∀ (spec : OpenAPISpec) (v : String) (msg : String),
      truthyStr spec.infoVersion = some v →
      ∃ (db' : DB) (api : Api),
        registerApi (.ok spec) none (some msg) newId now dto userId db =
          .ok (db', api) ∧ db'.snapshots = db.snapshots) := by
  refine ⟨fun msg saveO snapO => rfl, ?_, ?_, ?_⟩
  · intro spec saveO snapO h
    simp only [registerApi]
    rw [h]
  · intro spec v h
    refine ⟨⟨db.apis ++ [⟨newId, dto.apiName, dto.openApiUrl,
        (truthyStr dto.type).getD "openapi", v, spec, some now, userId,
        (truthyStr dto.checkFrequency).getD "1h", dto.tags.getD [],
        dto.description, "healthy", some now, none, 0, true⟩],
      db.snapshots ++ [⟨newId, (truthyStr spec.infoVersion).getD "unknown",
        spec, now, snapshotMetadata spec⟩], db.changelog⟩,
      ⟨newId, dto.apiName, dto.openApiUrl,
        (truthyStr dto.type).getD "openapi", v, spec, some now, userId,
        (truthyStr dto.checkFrequency).getD "1h", dto.tags.getD [],
        dto.description, "healthy", some now, none, 0, true⟩,
      ?_, rfl, rfl, rfl, ?_,
      ⟨⟨newId, (truthyStr spec.infoVersion).getD "unknown", spec, now,
        snapshotMetadata spec⟩, rfl, rfl⟩⟩
    · simp only [registerApi]
      conv_lhs => rw [h]
      rfl
    · exact List.mem_append_right _ (List.mem_singleton.mpr rfl)
  · intro spec v msg h
    refine ⟨⟨db.apis ++ [⟨newId, dto.apiName, dto.openApiUrl,
        (truthyStr dto.type).getD "openapi", v, spec, some now, userId,
        (truthyStr dto.checkFrequency).getD "1h", dto.tags.getD [],
        dto.description, "healthy", some now, none, 0, true⟩],
      db.snapshots, db.changelog⟩,
      ⟨newId, dto.apiName, dto.openApiUrl,
        (truthyStr dto.type).getD "openapi", v, spec, some now, userId,
        (truthyStr dto.checkFrequency).getD "1h", dto.tags.getD [],
        dto.description, "healthy", some now, none, 0, true⟩, ?_, rfl⟩
    simp only [registerApi]
    conv_lhs => rw [h]
    rfl

/-- C6 witness: the amended theorem's success clause applied to the empty
store with the fixture document. -/
theorem c6_witness :
    truthyStr s0.infoVersion = some "1.0.0" ∧
    ∃ (db' : DB) (api : Api),
      registerApi (.ok s0) none none "n1" 100 dtoDemo "u1" emptyDB =
        .ok (db', api) ∧
      api.healthStatus = "healthy" ∧ api.changeCount = 0 ∧ api.id = "n1" ∧
      api ∈ db'.apis ∧
      ∃ snap : ApiSnapshot, db'.snapshots = emptyDB.snapshots ++ [snap] ∧
        snap.apiId = "n1" :=
  ⟨rfl, (c6_registration_amended emptyDB dtoDemo "u1" "n1" 100).2.2.1 s0
    "1.0.0" rfl⟩

/-- Write outcomes where only the snapshot insert is rejected. -/
def snapFail : CheckWriteOutcomes := ⟨none, none, none, some "disk full", none, none⟩

/-- C7 counterexample: when the Snapshot write of the changed-check path
fails, the failure is swallowed inside `createSnapshot`, so the check
completes as a success and the target's health ends `healthy` with no
error recorded — not `error` as the claim requires for any failing
persistence write of steps 5–6. -/
theorem c7_snapshot_failure_leaves_health_healthy :
    ∃ db' : DB,
      checkApiForChanges detectAdd (.ok s1) snapFail 1000 db0 "a1" =
        .ok (db', ⟨true, some ["added /users"], some "1.0.0"⟩) ∧
      (findById db' "a1").map (fun a => a.healthStatus) = some "healthy" ∧
      (findById db' "a1").map (fun a => a.lastError) = some none ∧
      db'.snapshots = db0.snapshots :=
  ⟨_, rfl, by decide, by decide, by decide⟩

/-- C7 amended: a rejected target-record update during the changed-check
path reaches the catch handler, which sets health `error` with the
rejection message recorded; the check still resolves with the per-target
result (no throw), writes no Snapshot and no ChangelogEntry, and leaves
every other stored target untouched.  (A rejected Snapshot write, by
contrast, is swallowed and leaves health `healthy`.) -/
theorem c7_update_failure_degrades_health
    (detect : OpenAPISpec → OpenAPISpec → ChangeResult)
    (db : DB) (apiId : String) (api : Api) (w : CheckWriteOutcomes)
    (now : Int) (spec : OpenAPISpec) (msg : String)
    (hfind : findById db apiId = some api) (hact : api.isActive = true)
    (hdet : (detect api.latestSpec spec).hasChanges = true)
    (hw1 : w.markChecking = none) (hw2 : w.markHealthy = none)
    (hw3 : w.applyChange = some msg) (hwe : w.markError = none) :
    ∃ db' : DB,
      checkApiForChanges detect (.ok spec) w now db apiId =
        .ok (db', noChange) ∧
      findById db' apiId = some { api with
        healthStatus := "error",
        lastChecked := some now,
        lastHealthCheck := some now,
        lastError := some msg } ∧
      db'.snapshots = db.snapshots ∧ db'.changelog = db.changelog ∧
      ∀ b ∈ db.apis, b.id ≠ apiId → b ∈ db'.apis := by
  refine ⟨findByIdAndUpdate (findByIdAndUpdate (findByIdAndUpdate db apiId
      (fun a => { a with healthStatus := "checking", lastHealthCheck := some now }))
      apiId (fun a =>
      { a with healthStatus := "healthy", lastChecked := some now,
               lastHealthCheck := some now, lastError := none }))
      apiId (fun a =>
      { a with healthStatus := "error", lastHealthCheck := some now,
               lastError := some msg }), ?_, ?_, rfl, rfl, ?_⟩
  · unfold checkApiForChanges
    rw [hfind]
    simp only [hact, if_true, hw1, hw2, hw3, hwe, tryUpdate, hdet]
  · rw [findById_findByIdAndUpdate, findById_findByIdAndUpdate,
        findById_findByIdAndUpdate, hfind]
    · rfl
    · intro a ha; exact ha
    · intro a ha; exact ha
    · intro a ha; exact ha
  · intro b hb hne
    exact mem_findByIdAndUpdate_of_ne _ _ _ _
      (mem_findByIdAndUpdate_of_ne _ _ _ _
        (mem_findByIdAndUpdate_of_ne _ _ _ _ hb hne) hne) hne

/-- Write outcomes where only the changed-target update is rejected. -/
def updFail : CheckWriteOutcomes := ⟨none, none, some "write failed", none, none, none⟩

/-- C7 witness: the amended theorem applied to the fixture with the
changed-target update rejected. -/
theorem c7_witness :
    findById db0 "a1" = some api0 ∧ api0.isActive = true ∧
    (detectAdd api0.latestSpec s1).hasChanges = true ∧
    ∃ db' : DB,
      checkApiForChanges detectAdd (.ok s1) updFail 1000 db0 "a1" =
        .ok (db', noChange) ∧
      findById db' "a1" = some { api0 with
        healthStatus := "error",
        lastChecked := some 1000,
        lastHealthCheck := some 1000,
        lastError := some "write failed" } ∧
      db'.snapshots = db0.snapshots ∧ db'.changelog = db0.changelog ∧
      ∀ b ∈ db0.apis, b.id ≠ "a1" → b ∈ db'.apis :=
  ⟨by decide, by decide, rfl,
   c7_update_failure_degrades_health detectAdd db0 "a1" api0 updFail 1000 s1
     "write failed" (by decide) (by decide) rfl rfl rfl rfl rfl⟩

theorem findById_createSnapshot (o : Option String) (db : DB) (i : String)
    (spec : OpenAPISpec) (now : Int) (j : String) :
    findById (createSnapshot o db i spec now) j = findById db j := by
  cases o <;> rfl

/-- A fetched document with no `info.version`. -/
def sNoVer : OpenAPISpec := ⟨none, ["/users"], [], 15⟩

/-- C8 counterexample: a check whose fetch succeeds with a document lacking
`info.version` is not treated as a failure — the check completes as a
success (`hasChanges = true`, health `healthy`) and the stored
specification is silently replaced by the version-less document (only the
version string falls back to the old one), contradicting both halves of
the claim. -/
theorem c8_versionless_spec_silently_applied :
    sNoVer.infoVersion = none ∧
    ∃ db' : DB,
      checkApiForChanges detectAdd (.ok sNoVer) allOk 1000 db0 "a1" =
        .ok (db', ⟨true, some ["added /users"], none⟩) ∧
      (findById db' "a1").map (fun a => a.latestSpec) = some sNoVer ∧
      (findById db' "a1").map (fun a => a.version) = some "1.0.0" ∧
      (findById db' "a1").map (fun a => a.healthStatus) = some "healthy" :=
  ⟨rfl, _, rfl, by decide, by decide, by decide⟩

/-- C8 amended: the scheduled check performs no `info.version` validation:
a successfully fetched document lacking it is diffed normally and, when
the detector reports changes, the check succeeds, the stored specification
is replaced by the version-less document while the stored version string
falls back to the previous one, and the new Snapshot is recorded with
version `unknown`. -/
theorem c8_no_version_validation_on_check
    (detect : OpenAPISpec → OpenAPISpec → ChangeResult)
    (db : DB) (apiId : String) (api : Api) (w : CheckWriteOutcomes)
    (now : Int) (spec : OpenAPISpec)
    (hfind : findById db apiId = some api) (hact : api.isActive = true)
    (hnover : spec.infoVersion = none)
    (hdet : (detect api.latestSpec spec).hasChanges = true)
    (hw1 : w.markChecking = none) (hw2 : w.markHealthy = none)
    (hw3 : w.applyChange = none) (hw4 : w.snapshotInsert = none) :
    ∃ db' : DB,
      checkApiForChanges detect (.ok spec) w now db apiId =
        .ok (db', ⟨true, some (detect api.latestSpec spec).changes, none⟩) ∧
      findById db' apiId = some { api with
        latestSpec := spec,
        lastChecked := some now,
        lastHealthCheck := some now,
        lastError := none,
        changeCount := api.changeCount + 1,
        healthStatus := "healthy" } ∧
      ∃ snap : ApiSnapshot, db'.snapshots = db.snapshots ++ [snap] ∧
        snap.version = "unknown" ∧ snap.spec = spec := by
  refine ⟨createSnapshot none (findByIdAndUpdate (findByIdAndUpdate
      (findByIdAndUpdate db apiId
      (fun a => { a with healthStatus := "checking", lastHealthCheck := some now }))
      apiId (fun a =>
      { a with healthStatus := "healthy", lastChecked := some now,
               lastHealthCheck := some now, lastError := none }))
      apiId (fun a =>
      { a with latestSpec := spec,
               version := (truthyStr spec.infoVersion).getD api.version,
               changeCount := api.changeCount + 1 })) apiId spec now,
    ?_, ?_, ?_⟩
  · unfold checkApiForChanges
    rw [hfind]
    simp only [hact, if_true, hw1, hw2, hw3, hw4, tryUpdate, hdet, hnover]
  · rw [findById_createSnapshot, findById_findByIdAndUpdate,
        findById_findByIdAndUpdate, findById_findByIdAndUpdate, hfind]
    · simp only [hnover]
      rfl
    · intro a ha; exact ha
    · intro a ha; exact ha
    · intro a ha; exact ha
  · refine ⟨⟨apiId, (truthyStr spec.infoVersion).getD "unknown", spec, now,
      snapshotMetadata spec⟩, rfl, ?_, rfl⟩
    simp [hnover, truthyStr]

/-- C8 witness: the amended theorem applied to the fixture target with the
version-less fetched document. -/
theorem c8_witness :
    findById db0 "a1" = some api0 ∧ api0.isActive = true ∧
    sNoVer.infoVersion = none ∧
    (detectAdd api0.latestSpec sNoVer).hasChanges = true ∧
    ∃ db' : DB,
      checkApiForChanges detectAdd (.ok sNoVer) allOk 1000 db0 "a1" =
        .ok (db', ⟨true, some (detectAdd api0.latestSpec sNoVer).changes, none⟩) ∧
      findById db' "a1" = some { api0 with
        latestSpec := sNoVer,
        lastChecked := some 1000,
        lastHealthCheck := some 1000,
        lastError := none,
        changeCount := api0.changeCount + 1,
        healthStatus := "healthy" } ∧
      ∃ snap : ApiSnapshot, db'.snapshots = db0.snapshots ++ [snap] ∧
        snap.version = "unknown" ∧ snap.spec = sNoVer :=
  ⟨by decide, by decide, rfl, rfl,
   c8_no_version_validation_on_check detectAdd db0 "a1" api0 allOk 1000 sNoVer
     (by decide) (by decide) rfl rfl rfl rfl rfl rfl⟩

/-- C9: an owner-initiated delete of an existing target removes the target
record and every Snapshot and ChangelogEntry referencing it, and leaves
all records of other targets in place. -/
theorem c9_delete_cascades (db : DB) (id userId : String) (api : Api)
    (hfind : findById db id = some api) (hown : api.userId = userId) :
    ∃ db' : DB, deleteApi db id userId = .ok db' ∧
      (∀ a ∈ db'.apis, a.id ≠ id) ∧
      (∀ s ∈ db'.snapshots, s.apiId ≠ id) ∧
      (∀ e ∈ db'.changelog, e.apiId ≠ id) ∧
      (∀ a ∈ db.apis, a.id ≠ id → a ∈ db'.apis) ∧
      (∀ s ∈ db.snapshots, s.apiId ≠ id → s ∈ db'.snapshots) ∧
      (∀ e ∈ db.changelog, e.apiId ≠ id → e ∈ db'.changelog) := by
  refine ⟨⟨db.apis.filter (fun a => !(a.id == id)),
    db.snapshots.filter (fun s => !(s.apiId == id)),
    db.changelog.filter (fun e => !(e.apiId == id))⟩, ?_, ?_, ?_, ?_, ?_, ?_, ?_⟩
  · unfold deleteApi
    rw [hfind]
    simp [hown]
  · intro a ha
    simpa using (List.mem_filter.mp ha).2
  · intro s hs
    simpa using (List.mem_filter.mp hs).2
  · intro e he
    simpa using (List.mem_filter.mp he).2
  · intro a ha hne
    exact List.mem_filter.mpr ⟨ha, by simpa using hne⟩
  · intro s hs hne
    exact List.mem_filter.mpr ⟨hs, by simpa using hne⟩
  · intro e he hne
    exact List.mem_filter.mpr ⟨he, by simpa using hne⟩

/-- A populated store: the fixture target, its snapshot, one changelog
entry for it, and a second user's unrelated target. -/
def otherApi : Api :=
  ⟨"b1", "other", "http://y", "openapi", "2.0.0", s0, none, "bob", "5m",
   [], none, "healthy", none, none, 3, true⟩

/-- Store used by the C9 witness. -/
def dbFull : DB :=
  ⟨[api0, otherApi], [⟨"a1", "1.0.0", s0, 0, snapshotMetadata s0⟩],
   [⟨"a1", "0.9.0", "1.0.0", "initial", 50⟩]⟩

/-- C9 witness: the theorem applied to the populated store; the delete
removes the target, its snapshot and its changelog entry and keeps the
other user's target. -/
theorem c9_witness :
    findById dbFull "a1" = some api0 ∧ api0.userId = "u1" ∧
    ∃ db' : DB, deleteApi dbFull "a1" "u1" = .ok db' ∧
      (∀ a ∈ db'.apis, a.id ≠ "a1") ∧
      (∀ s ∈ db'.snapshots, s.apiId ≠ "a1") ∧
      (∀ e ∈ db'.changelog, e.apiId ≠ "a1") ∧
      (∀ a ∈ dbFull.apis, a.id ≠ "a1" → a ∈ db'.apis) ∧
      (∀ s ∈ dbFull.snapshots, s.apiId ≠ "a1" → s ∈ db'.snapshots) ∧
      (∀ e ∈ dbFull.changelog, e.apiId ≠ "a1" → e ∈ db'.changelog) :=
  ⟨by decide, rfl, c9_delete_cascades dbFull "a1" "u1" api0 (by decide) rfl⟩

/-- A recent changelog entry belonging to the second user's target. -/
def bobEntry : Changelog := ⟨"b1", "2.0.0", "2.1.0", "changed", 0⟩

/-- Store used by the C10 demonstration: every target and changelog entry
belongs to `bob`. -/
def statsDemoDb : DB := ⟨[otherApi], [], [bobEntry]⟩

/-- C10: the five per-user statistics count only the requesting user's
targets (each equals the corresponding count over
`db.apis.filter (userId = u)`), while `recentChanges` counts the changelog
entries of the last seven days of every user's targets: its filter carries
only the timestamp bound, and on a store where the only recent entry
belongs to another user's target the requesting user still sees
`recentChanges = 1` with `totalApis = 0`. -/
theorem c10_stats_scope :
    (∀ (db : DB) (u : String) (now : Int),
      (getApiStats db u now).totalApis =
        (db.apis.filter (fun a => a.userId == u)).length ∧
      (getApiStats db u now).activeApis =
        ((db.apis.filter (fun a => a.userId == u)).filter
          (fun a => a.isActive)).length ∧
      (getApiStats db u now).healthyApis =
        ((db.apis.filter (fun a => a.userId == u)).filter
          (fun a => a.healthStatus == "healthy")).length ∧
      (getApiStats db u now).unhealthyApis =
        ((db.apis.filter (fun a => a.userId == u)).filter
          (fun a => a.healthStatus == "unhealthy" || a.healthStatus == "error")).length ∧
      (getApiStats db u now).totalChanges =
        ((db.apis.filter (fun a => a.userId == u)).map
          (fun a => a.changeCount)).sum ∧
      (getApiStats db u now).recentChanges =
        (db.changelog.filter (fun e =>
          decide (now - sevenDaysMs ≤ e.timestamp))).length) ∧
    ((getApiStats statsDemoDb "alice" 0).totalApis = 0 ∧
     (getApiStats statsDemoDb "alice" 0).recentChanges = 1 ∧
     statsDemoDb.changelog.all (fun e => statsDemoDb.apis.any (fun a =>
       a.id == e.apiId && !(a.userId == "alice"))) = true) := by
  refine ⟨?_, by decide, by decide, by decide⟩
  intro db u now
  refine ⟨?_, ?_, ?_, ?_, rfl, ?_⟩
  · simp [getApiStats, List.countP_eq_length_filter]
  · simp [getApiStats, List.countP_eq_length_filter, List.filter_filter,
      Bool.and_comm]
  · simp [getApiStats, List.countP_eq_length_filter, List.filter_filter,
      Bool.and_comm]
  · simp [getApiStats, List.countP_eq_length_filter, List.filter_filter,
      Bool.and_comm]
  · simp [getApiStats, List.countP_eq_length_filter]

/-- C10 witness: the general equations applied to the demonstration store
for user `bob`. -/
theorem c10_witness :
    (getApiStats statsDemoDb "bob" 0).totalApis =
      (statsDemoDb.apis.filter (fun a => a.userId == "bob")).length ∧
    (getApiStats statsDemoDb "bob" 0).activeApis =
      ((statsDemoDb.apis.filter (fun a => a.userId == "bob")).filter
        (fun a => a.isActive)).length ∧
    (getApiStats statsDemoDb "bob" 0).healthyApis =
      ((statsDemoDb.apis.filter (fun a => a.userId == "bob")).filter
        (fun a => a.healthStatus == "healthy")).length ∧
    (getApiStats statsDemoDb "bob" 0).unhealthyApis =
      ((statsDemoDb.apis.filter (fun a => a.userId == "bob")).filter
        (fun a => a.healthStatus == "unhealthy" || a.healthStatus == "error")).length ∧
    (getApiStats statsDemoDb "bob" 0).totalChanges =
      ((statsDemoDb.apis.filter (fun a => a.userId == "bob")).map
        (fun a => a.changeCount)).sum ∧
    (getApiStats statsDemoDb "bob" 0).recentChanges =
      (statsDemoDb.changelog.filter (fun e =>
        decide ((0 : Int) - sevenDaysMs ≤ e.timestamp))).length :=
  c10_stats_scope.1 statsDemoDb "bob" 0

end APILens
